import Mathlib

/-!
Shallow embedding of the compositor and callout (popup) overlay engine of
`src/export-image.ts` (leaflet-headless).

Conventions of the embedding:
* JS strings are `List Char`; `null`/`undefined`/falsy fields are `Option`.
* JS numbers that only ever hold integral pixel offsets are `Int`;
  text-measurement and popup-layout coordinates (which divide by 2 and
  multiply by 1.35) are `ℚ`, exact stand-ins for the float arithmetic.
* External collaborators (the image loader `loadImageSource`, the canvas
  text measurer `ctx.measureText`, Leaflet's projection) are parameters.
* HTML entity decoding through the scratch `<div>` decoder is modelled as
  the identity on entity-free text; none of the verified claims involve
  entities.
* The 2D context is modelled as the list of draw operations issued to it,
  in order.
-/

namespace LeafletHeadless

/-- Whitespace as matched by the regex class `\s` and by `String.prototype.trim`
(restricted to the ASCII part; the claims only involve spaces, tabs and
newlines). -/
def isJsWs (c : Char) : Bool :=
  c = ' ' || c = '\t' || c = '\n' || c = '\r' || c = '\x0b' || c = '\x0c'

/-- `String.prototype.trim`: strip leading and trailing whitespace. -/
def jsTrim (l : List Char) : List Char :=
  ((l.dropWhile isJsWs).reverse.dropWhile isJsWs).reverse

/-- Head match of the regex `<br\s*\/?>` (flag `i`): on success returns the
input minus the matched marker. The trailing capture group `(\s*)` of the
source regex is re-emitted unchanged by the replacement `'\n$1'`, so it is
simply left in place here. -/
def matchBr : List Char → Option (List Char)
  | '<' :: b :: r :: rest =>
    if b.toLower = 'b' && r.toLower = 'r' then
      match rest.dropWhile isJsWs with
      | '>' :: tail => some tail
      | '/' :: '>' :: tail => some tail
      | _ => none
    else none
  | _ => none

/-- Fuel-indexed worker for the global replacement
`rawHtml.replace(/<br\s*\/?>(\s*)/gi, '\n$1')`; the fuel is an upper bound on
the input length, so the base case is never reached from `replaceBr`. -/
def replaceBrFuel : Nat → List Char → List Char
  | 0, l => l
  | _ + 1, [] => []
  | fuel + 1, c :: cs =>
    match matchBr (c :: cs) with
    | some rest => '\n' :: replaceBrFuel fuel rest
    | none => c :: replaceBrFuel fuel cs

/-- `rawHtml.replace(/<br\s*\/?>(\s*)/gi, '\n$1')` (line 171 of
`export-image.ts`). -/
def replaceBr (l : List Char) : List Char :=
  replaceBrFuel l.length l

/-- The blank-line collapse loop of `normalisePopupText` (lines 183–189):
push each line, but skip an empty line when the last pushed line is already
empty. -/
def collapseBlank (res : List (List Char)) : List (List Char) → List (List Char)
  | [] => res
  | line :: rest =>
    if line = [] ∧ res.getLast? = some [] then collapseBlank res rest
    else collapseBlank (res ++ [line]) rest

/-- `normalisePopupText` (lines 165–192 of `export-image.ts`). The argument is
the content node's `innerHTML` (`none` when there is no content node); entity
decoding is the identity on the entity-free text the claims use. -/
def normalisePopupText (contentNode : Option (List Char)) : List (List Char) :=
  match contentNode with
  | none => [[]]
  | some rawHtml =>
    let text := (replaceBr rawHtml).filter (fun c => c ≠ '\r')
    let lines := (text.splitOn '\n').map jsTrim
    if lines = [] then [[]]
    else
      let result := collapseBlank [] lines
      if result = [] then [[]] else result

/-- A Leaflet popup instance, reduced to the fields `export-image.ts` reads.
`id` stands for object identity (Leaflet stamps every layer). `position` is
`map.latLngToLayerPoint(popup.getLatLng())`, the projection collaborator's
output; `none` models a popup without a `getLatLng` function (line 200).
`anchor` is `popup._getAnchor()` and `offset` is `popup.options.offset`,
each defaulting to the point `(0, 0)` when absent (lines 211–212).
`content` is the content node's markup (`none`: no content node, lines
215–217) and `explicitWidth` the finite parse of `contentNode.style.width`
(line 227). -/
structure Popup where
  id : Nat
  position : Option (ℚ × ℚ)
  anchor : Option (ℚ × ℚ)
  offset : Option (ℚ × ℚ)
  content : Option (List Char)
  explicitWidth : Option ℚ
deriving DecidableEq

/-- The map state read by `collectPopupLayers` (lines 138–163): the currently
open popup `map._popup`, the layer table `Object.values(map._layers)` in
enumeration order (each paired with the result of `instanceof L.Popup`), and
the membership test `map.hasLayer`. -/
structure PopupEnv where
  popup : Option Popup
  layers : List (Popup × Bool)
  hasLayer : Nat → Bool

/-- The loop of `collectPopupLayers` over `Object.values(map._layers)`
(lines 150–160): `acc` is the `popups` array so far, `seen` the `Set` of
already-pushed instances (identified by their stamps). -/
def collectGo (env : PopupEnv) : List (Popup × Bool) → List Popup → List Nat → List Popup
  | [], acc, _ => acc
  | (layer, isPopupInstance) :: rest, acc, seen =>
    if isPopupInstance = true ∧ env.hasLayer layer.id = true ∧ layer.id ∉ seen then
      collectGo env rest (acc ++ [layer]) (seen ++ [layer.id])
    else
      collectGo env rest acc seen

/-- `collectPopupLayers` (lines 138–163): the open popup first when the map
still has it, then every popup-instance layer of the layer table not already
seen. -/
def collectPopupLayers (env : PopupEnv) : List Popup :=
  match env.popup with
  | some p =>
    if env.hasLayer p.id then collectGo env env.layers [p] [p.id]
    else collectGo env env.layers [] []
  | none => collectGo env env.layers [] []

/-- The padding record of `measurePopupLayout` (line 229). -/
structure Padding where
  left : ℚ
  right : ℚ
  top : ℚ
  bottom : ℚ

/-- The `PopupLayout` interface (lines 126–136), minus the font string. -/
structure PopupLayout where
  left : ℚ
  top : ℚ
  width : ℚ
  height : ℚ
  contentLines : List (List Char)
  padding : Padding
  lineHeight : ℚ
  tipSize : ℚ

/-- `Math.round`: round half toward positive infinity. -/
def jsRound (q : ℚ) : ℤ := ⌊q + 1 / 2⌋

/-- `measurePopupLayout` (lines 194–250). `measure` is the canvas text
metrics collaborator `ctx.measureText(line).width` at the popup font;
`size` is `map.getSize()`. Returns `none` when the popup has no `getLatLng`
(the global `L` is assumed present). -/
def measurePopupLayout (measure : List Char → ℚ) (size : ℚ × ℚ) (popup : Popup) :
    Option PopupLayout :=
  match popup.position with
  | none => none
  | some position =>
    let anchorPoint := popup.anchor.getD (0, 0)
    let optionOffset := popup.offset.getD (0, 0)
    let totalOffset := (position.1 + anchorPoint.1 + optionOffset.1,
                        position.2 + anchorPoint.2 + optionOffset.2)
    let contentLines := normalisePopupText popup.content
    let measuredWidths := contentLines.map measure
    let explicitCandidate := popup.explicitWidth.getD 0
    let contentWidth := measuredWidths.foldr max (max 0 explicitCandidate)
    let padding : Padding := { left := 20, right := 24, top := 13, bottom := 13 }
    let boxWidth := max 40 (contentWidth + padding.left + padding.right)
    let lineHeight : ℚ := (jsRound (14 * 1.35) : ℤ)
    let contentHeight := max lineHeight (lineHeight * contentLines.length)
    let boxHeight := contentHeight + padding.top + padding.bottom
    let tipSize : ℚ := 12
    some { left := totalOffset.1 - boxWidth / 2
           top := size.2 - totalOffset.2 - (boxHeight + tipSize)
           width := boxWidth
           height := boxHeight
           contentLines := contentLines
           padding := padding
           lineHeight := lineHeight
           tipSize := tipSize }

/-- One drawing operation issued for a popup by `drawPopupOverlays`
(lines 275–335), in issue order: the shadowed background fill, the filled
and stroked tail path (its vertices in `moveTo`/`lineTo` order), the
re-stroke of the rounded box outline, and one `fillText` per content
line. -/
inductive PopupOp
  | boxFill (left top width height radius : ℚ)
  | tailPath (points : List (ℚ × ℚ))
  | boxStroke (left top width height radius : ℚ)
  | textLine (line : List Char) (x y : ℚ)

/-- The vertices of the tail path in `moveTo`/`lineTo` order (lines 291–316):
with `tipHalf = tipSize`, `tipBaseY = top + height` and
`tipCenterX = left + width / 2`, the path starts at the box's bottom edge,
goes to the right vertex, then to the bottom (pointing) vertex at
`tipBaseY + tipHalf * 2`, then to the left vertex. -/
def tailPoints (layout : PopupLayout) : List (ℚ × ℚ) :=
  let tipHalf := layout.tipSize
  let tipBaseY := layout.top + layout.height
  let tipCenterX := layout.left + layout.width / 2
  [(tipCenterX, tipBaseY),
   (tipCenterX + tipHalf, tipBaseY + tipHalf),
   (tipCenterX, tipBaseY + tipHalf * 2),
   (tipCenterX - tipHalf, tipBaseY + tipHalf)]

/-- The operations painted for one laid-out popup (lines 291–331). -/
def popupOps (layout : PopupLayout) : List PopupOp :=
  [PopupOp.boxFill layout.left layout.top layout.width layout.height 12,
   PopupOp.tailPath (tailPoints layout),
   PopupOp.boxStroke layout.left layout.top layout.width layout.height 12]
  ++ ((List.range layout.contentLines.length).zip layout.contentLines).map
      (fun p => PopupOp.textLine p.2 (layout.left + layout.padding.left)
        (layout.top + layout.padding.top + p.1 * layout.lineHeight))

/-- `drawPopupOverlays` (lines 275–335) as the list of popup operations it
issues: for each collected popup with a layout, the operations of
`popupOps`, in collection order; popups without a layout are skipped. -/
def drawPopupOverlays (measure : List Char → ℚ) (env : PopupEnv) (size : ℚ × ℚ) :
    List PopupOp :=
  (collectPopupLayers env).flatMap (fun popup =>
    match measurePopupLayout measure size popup with
    | none => []
    | some layout => popupOps layout)

/-- Tag of a drawable element found by `querySelectorAll('canvas, img')`. -/
inductive Tag
  | canvas
  | img
deriving DecidableEq

/-- A decoded pixel buffer (`@napi-rs/canvas` `Canvas` or `Image`); `id`
stands for the buffer's identity/content. -/
structure Raster where
  width : Nat
  height : Nat
  id : Nat
deriving DecidableEq

/-- A drawable DOM element as read by the compositing loop (lines 56–113).
`styleLeft`/`styleTop` hold the finite `parseFloat` of the style offsets
(`none`: missing or `NaN`); `offsetLeft`/`offsetTop` the finite layout
fallback offsets. `napiCanvas` is the `_napiCanvas` surface of a canvas
element, `src`/`napiImage` the source locator (`none` when missing or
empty, both falsy) and `_napiImage` decode cache of an image element.
`widthProp`/`widthAttr` model `imgElement.width` and the parsed `width`
attribute, with `0` standing for every falsy value (lines 106–107). -/
structure Element where
  tag : Tag
  styleLeft : Option Int
  styleTop : Option Int
  offsetLeft : Option Int
  offsetTop : Option Int
  napiCanvas : Option Raster
  src : Option (List Char)
  napiImage : Option Raster
  widthProp : Nat
  heightProp : Nat
  widthAttr : Nat
  heightAttr : Nat
deriving DecidableEq

/-- Draw x position (lines 63–70): finite parsed `style.left`, else finite
`offsetLeft`, else `0`. -/
def elementX (e : Element) : Int := e.styleLeft.getD (e.offsetLeft.getD 0)

/-- Draw y position (lines 64–75). -/
def elementY (e : Element) : Int := e.styleTop.getD (e.offsetTop.getD 0)

/-- `ctx.drawImage` calls of the compositing loop: a canvas surface blit at
a position (line 85), or an image blit at a position and size (line 109). -/
inductive DrawOp
  | canvasBlit (r : Raster) (x y : Int)
  | imageBlit (r : Raster) (x y : Int) (w h : Nat)
deriving DecidableEq

/-- The image fetch/decode collaborator `loadImageSource` of `image.ts`:
from a source locator to a decoded raster, or a thrown error message. -/
def Loader : Type := List Char → Except (List Char) Raster

/-- Lines 99–104: resolve an image element's raster through the `_napiImage`
cache. Returns the resolved raster or the thrown load error, the element
with its possibly updated cache, and the number of `loadImageSource`
calls made. A load failure throws before the cache assignment, so nothing
is cached on failure. -/
def resolveImage (load : Loader) (e : Element) (src : List Char) :
    Except (List Char) Raster × Element × Nat :=
  match e.napiImage with
  | some existing => (Except.ok existing, e, 0)
  | none =>
    match load src with
    | Except.ok image => (Except.ok image, { e with napiImage := some image }, 1)
    | Except.error msg => (Except.error msg, e, 1)

/-- Draw width of an image element (line 106): `imgElement.width`, else the
parsed `width` attribute, else the decoded raster's natural width (each
earlier candidate skipped when falsy, i.e. `0`). -/
def imgDrawWidth (e : Element) (image : Raster) : Nat :=
  if e.widthProp ≠ 0 then e.widthProp
  else if e.widthAttr ≠ 0 then e.widthAttr
  else image.width

/-- Draw height of an image element (line 107). -/
def imgDrawHeight (e : Element) (image : Raster) : Nat :=
  if e.heightProp ≠ 0 then e.heightProp
  else if e.heightAttr ≠ 0 then e.heightAttr
  else image.height

/-- One iteration of the compositing loop (lines 56–113): the draw call it
issues (`none` when the element is skipped: canvas without `_napiCanvas`,
image without `src`, or a caught load failure), the element with its
updated decode cache, and the number of load calls. -/
def elementStep (load : Loader) (e : Element) : Option DrawOp × Element × Nat :=
  match e.tag with
  | Tag.canvas =>
    match e.napiCanvas with
    | none => (none, e, 0)
    | some surface => (some (DrawOp.canvasBlit surface (elementX e) (elementY e)), e, 0)
  | Tag.img =>
    match e.src with
    | none => (none, e, 0)
    | some src =>
      match resolveImage load e src with
      | (Except.ok image, e', n) =>
        (some (DrawOp.imageBlit image (elementX e) (elementY e)
                (imgDrawWidth e image) (imgDrawHeight e image)), e', n)
      | (Except.error _, e', n) => (none, e', n)

/-- The whole compositing loop over the drawable elements, in DOM order:
the issued draw calls, the updated elements, and the total load count. -/
def compositeLoop (load : Loader) : List Element → List DrawOp × List Element × Nat
  | [] => ([], [], 0)
  | e :: es =>
    let step := elementStep load e
    let rest := compositeLoop load es
    (step.1.toList ++ rest.1, step.2.1 :: rest.2.1, step.2.2 + rest.2.2)

/-- The map state read and written by `mapToCanvas`. `size` is
`map.getSize()`; `elements` the drawable elements of the container in DOM
order; `elementsAfterCircle` the drawables the re-query finds after the
temporary transparent circle has been added (the circle forces the canvas
renderer's creation — an external collaborator effect, so the re-query
result is a model input); `sceneLayers` the stamps of the layers attached
to the map; `circleId` the stamp the temporary circle receives; `popups`
the state read by the popup overlay pass. -/
structure MapModel where
  size : Nat × Nat
  elements : List Element
  elementsAfterCircle : List Element
  sceneLayers : List Nat
  circleId : Nat
  popups : PopupEnv

/-- The export canvas produced by `mapToCanvas`: its dimensions (line 19:
`createCanvas(size.x, size.y)`) and the operations drawn onto its context —
the layer blits of the compositing loop followed by the popup overlay
operations (drawn strictly later, line 121). -/
structure Canvas where
  width : Nat
  height : Nat
  ops : List DrawOp
  popupOps : List PopupOp

/-- The single (re-)enumeration of drawables that actually gets composited:
the initial query result if non-empty, else the re-query after the
temporary circle was added (lines 26–47). -/
def effectiveElements (m : MapModel) : List Element :=
  if m.elements.isEmpty then m.elementsAfterCircle else m.elements

/-- `mapToCanvas` (lines 17–124): returns the export canvas or the thrown
error, together with the final map state (scene layers after temporary
circle cleanup, elements with updated decode caches). -/
def mapToCanvas (load : Loader) (measure : List Char → ℚ) (m : MapModel) :
    Except (List Char) Canvas × MapModel :=
  let sizeQ : ℚ × ℚ := ((m.size.1 : ℚ), (m.size.2 : ℚ))
  if m.elements.isEmpty then
    let sceneWithCircle := m.sceneLayers ++ [m.circleId]
    if m.elementsAfterCircle.isEmpty then
      (Except.error "Unable to create canvas renderer. Map may not be properly initialized.".data,
       { m with sceneLayers := sceneWithCircle.filter (fun i => i ≠ m.circleId) })
    else
      let run := compositeLoop load m.elementsAfterCircle
      (Except.ok { width := m.size.1, height := m.size.2, ops := run.1,
                   popupOps := drawPopupOverlays measure m.popups sizeQ },
       { m with elementsAfterCircle := run.2.1,
                sceneLayers := sceneWithCircle.filter (fun i => i ≠ m.circleId) })
  else
    let run := compositeLoop load m.elements
    (Except.ok { width := m.size.1, height := m.size.2, ops := run.1,
                 popupOps := drawPopupOverlays measure m.popups sizeQ },
     { m with elements := run.2.1 })

/-- The code's `contentWidth` (line 228): the maximum of `0`, the measured
widths of the normalised content lines, and the finite explicit width
override (`0` when absent). -/
def popupContentWidth (measure : List Char → ℚ) (popup : Popup) : ℚ :=
  ((normalisePopupText popup.content).map measure).foldr max
    (max 0 (popup.explicitWidth.getD 0))

/-- Modelled from the spec: the claim's `maxLineWidth` — the maximum
measured width over the normalised content lines, with the explicit width
override, when present, as an additional lower-bound candidate. Stated
from the spec's words for comparison against the code's `contentWidth`. -/
def specMaxLineWidth (measure : List Char → ℚ) (popup : Popup) : ℚ :=
  let widths := (normalisePopupText popup.content).map measure
  let measured :=
    match widths with
    | [] => 0
    | w :: ws => ws.foldr max w
  match popup.explicitWidth with
  | some w => max measured w
  | none => measured

/-! Concrete fixtures used by witnesses and counterexamples. -/

/-- A deterministic text measurer: one pixel per character. -/
def meas0 : List Char → ℚ := fun l => l.length

/-- A popup anchored at layer point `(100, 50)` with anchor offset
`(0, -7)` and content `"Hi"`. -/
def pop0 : Popup :=
  { id := 1, position := some (100, 50), anchor := some (0, -7), offset := none,
    content := some "Hi".data, explicitWidth := none }

/-- A map whose only popup-relevant state is `pop0` as the open popup. -/
def env8 : PopupEnv :=
  { popup := some pop0, layers := [], hasLayer := fun _ => true }

/-- An empty popup environment. -/
def envNone : PopupEnv :=
  { popup := none, layers := [], hasLayer := fun _ => false }

/-- A popup with two content lines of different lengths. -/
def pop9 : Popup :=
  { id := 2, position := some (0, 0), anchor := none, offset := none,
    content := some "A\nBB".data, explicitWidth := none }

/-- Measurer giving line `"A"` width `10` and every other line width `100`. -/
def measA : List Char → ℚ := fun l => if l = "A".data then 10 else 100

/-- Measurer giving line `"A"` width `20` and every other line width `100`:
`measA` with the width of line `"A"` increased by `10`. -/
def measB : List Char → ℚ := fun l => if l = "A".data then 20 else 100

/-- A popup with a position but no content node at all. -/
def popEmpty : Popup :=
  { id := 3, position := some (10, 20), anchor := none, offset := none,
    content := none, explicitWidth := none }

/-- A popup that is both the open popup and a layer-table entry. -/
def pop10 : Popup :=
  { id := 7, position := none, anchor := none, offset := none,
    content := none, explicitWidth := none }

/-- Environment in which `pop10` is the open popup and also appears in the
layer table, together with a non-popup layer and a detached popup. -/
def env10 : PopupEnv :=
  { popup := some pop10,
    layers := [(pop10, true), (pop0, false), (pop9, true)],
    hasLayer := fun i => i = 7 ∨ i = 1 }

/-- A small concrete layout record. -/
def layoutW : PopupLayout :=
  { left := 0, top := 0, width := 2, height := 3, contentLines := [],
    padding := { left := 0, right := 0, top := 0, bottom := 0 },
    lineHeight := 0, tipSize := 1 }

/-- A canvas surface raster. -/
def raster1 : Raster := { width := 300, height := 300, id := 11 }

/-- Another canvas surface raster. -/
def raster3 : Raster := { width := 64, height := 64, id := 13 }

/-- A decoded image raster. -/
def raster0 : Raster := { width := 256, height := 256, id := 10 }

/-- A default element record; fixtures override individual fields. -/
def baseElement : Element :=
  { tag := Tag.canvas, styleLeft := none, styleTop := none,
    offsetLeft := none, offsetTop := none, napiCanvas := none,
    src := none, napiImage := none,
    widthProp := 0, heightProp := 0, widthAttr := 0, heightAttr := 0 }

/-- A canvas element whose surface would be drawn fully outside a
`200 × 100` viewport. -/
def canvasElemFarOut : Element :=
  { baseElement with napiCanvas := some raster1,
                     styleLeft := some (-1000), styleTop := some (-1000) }

/-- A canvas element at `(0, 0)`. -/
def canvasElemHome : Element :=
  { baseElement with napiCanvas := some raster3,
                     styleLeft := some 0, styleTop := some 0 }

/-- An image element with an uncached source locator `"bad.png"`. -/
def imgElemBad : Element :=
  { baseElement with tag := Tag.img, src := some "bad.png".data,
                     styleLeft := some 10, styleTop := some 20 }

/-- An image element with an uncached source locator `"tile.png"`. -/
def imgElemTile : Element :=
  { baseElement with tag := Tag.img, src := some "tile.png".data }

/-- A loader that fails on every source. -/
def loadFail : Loader := fun _ => Except.error "decode failed".data

/-- A loader that decodes every source to `raster0`. -/
def loadOk : Loader := fun _ => Except.ok raster0

/-- A scene with one far-out-of-viewport canvas layer on a `200 × 100`
viewport. -/
def mapOut : MapModel :=
  { size := (200, 100), elements := [canvasElemFarOut],
    elementsAfterCircle := [], sceneLayers := [5], circleId := 99,
    popups := envNone }

/-- A three-layer scene whose second layer is an image asset that fails to
decode under `loadFail`. -/
def mapThree : MapModel :=
  { size := (200, 100), elements := [canvasElemFarOut, imgElemBad, canvasElemHome],
    elementsAfterCircle := [], sceneLayers := [5], circleId := 99,
    popups := envNone }

/-- A scene with no drawable elements whose temporary-circle re-query finds
one canvas element. -/
def mapEmpty : MapModel :=
  { size := (640, 480), elements := [],
    elementsAfterCircle := [canvasElemHome], sceneLayers := [5], circleId := 99,
    popups := envNone }

/-! Helper lemmas about `dropWhile`, `jsTrim` and `collapseBlank`. -/

theorem dropWhile_head_not (p : Char → Bool) :
    ∀ (l : List Char) (c : Char) (cs : List Char),
      l.dropWhile p = c :: cs → p c = false
  | [], c, cs, h => by simp [List.dropWhile_nil] at h
  | a :: as, c, cs, h => by
    by_cases hp : p a
    · exact dropWhile_head_not p as c cs (by simpa [List.dropWhile_cons, hp] using h)
    · rw [List.dropWhile_cons, if_neg hp] at h
      cases h
      simpa using hp

theorem dropWhile_eq_self_of_head (p : Char → Bool) :
    ∀ l : List Char, (∀ c cs, l = c :: cs → p c = false) → l.dropWhile p = l
  | [], _ => rfl
  | c :: cs, h => by rw [List.dropWhile_cons, if_neg]; simp [h c cs rfl]

theorem dropWhile_idem (p : Char → Bool) (l : List Char) :
    (l.dropWhile p).dropWhile p = l.dropWhile p :=
  dropWhile_eq_self_of_head p _ (fun c cs h => dropWhile_head_not p l c cs h)

theorem getLast_dropWhile (p : Char → Bool) :
    ∀ l : List Char, l.dropWhile p ≠ [] → (l.dropWhile p).getLast? = l.getLast?
  | [], h => absurd rfl h
  | a :: as, h => by
    by_cases hp : p a
    · rw [List.dropWhile_cons, if_pos hp] at h ⊢
      rw [getLast_dropWhile p as h]
      have has : as ≠ [] := by rintro rfl; exact h rfl
      cases as with
      | nil => exact absurd rfl has
      | cons b bs => simp [List.getLast?_cons_cons]
    · rw [List.dropWhile_cons, if_neg hp]

theorem jsTrim_idem (l : List Char) : jsTrim (jsTrim l) = jsTrim l := by
  have h1 : ((l.dropWhile isJsWs).reverse.dropWhile isJsWs).reverse.dropWhile isJsWs
      = ((l.dropWhile isJsWs).reverse.dropWhile isJsWs).reverse := by
    apply dropWhile_eq_self_of_head
    intro c cs hc
    have hhead : ((l.dropWhile isJsWs).reverse.dropWhile isJsWs).reverse.head? = some c := by
      rw [hc]; rfl
    rw [List.head?_reverse] at hhead
    have hYne : (l.dropWhile isJsWs).reverse.dropWhile isJsWs ≠ [] := by
      intro h0; rw [h0] at hc; simp at hc
    rw [getLast_dropWhile isJsWs _ hYne, List.getLast?_reverse] at hhead
    cases hA : l.dropWhile isJsWs with
    | nil => rw [hA] at hhead; simp at hhead
    | cons a as =>
      rw [hA] at hhead
      simp only [List.head?_cons, Option.some_inj] at hhead
      rw [← hhead]
      exact dropWhile_head_not isJsWs l a as hA
  unfold jsTrim
  rw [h1, List.reverse_reverse, dropWhile_idem]

theorem collapseBlank_mem :
    ∀ (rest res : List (List Char)) (x : List Char),
      x ∈ collapseBlank res rest → x ∈ res ∨ x ∈ rest
  | [], _res, _x, h => Or.inl h
  | line :: rest, res, x, h => by
    rw [collapseBlank] at h
    split at h
    · rcases collapseBlank_mem rest res x h with h' | h'
      · exact Or.inl h'
      · exact Or.inr (List.mem_cons_of_mem _ h')
    · rcases collapseBlank_mem rest (res ++ [line]) x h with h' | h'
      · rcases List.mem_append.mp h' with h'' | h''
        · exact Or.inl h''
        · simp at h''; subst h''; exact Or.inr (List.mem_cons_self _ _)
      · exact Or.inr (List.mem_cons_of_mem _ h')

theorem collapseBlank_chain' :
    ∀ (rest res : List (List Char)),
      List.Chain' (fun a b => ¬(a = [] ∧ b = [])) res →
      List.Chain' (fun a b => ¬(a = [] ∧ b = [])) (collapseBlank res rest)
  | [], _res, h => h
  | line :: rest, res, h => by
    rw [collapseBlank]
    split
    next => exact collapseBlank_chain' rest res h
    next hc =>
      apply collapseBlank_chain' rest
      rw [List.chain'_append]
      refine ⟨h, List.chain'_singleton _, ?_⟩
      intro x hx y hy
      simp only [List.head?_cons, Option.mem_def, Option.some_inj] at hy
      subst hy
      rintro ⟨hx0, hl0⟩
      exact hc ⟨hl0, by rw [← hx0]; exact hx⟩

/-- Claim C5: `normalisePopupText` converts `<br>` markers to line
separators, splits into lines, trims each line, collapses runs of empty
lines (no two consecutive output lines are empty), never returns zero
lines, and on the input `"  Line A  \nLine B<br><br>Line C  "` yields the
lines `["Line A", "Line B", "", "Line C"]`. -/
theorem normalisePopupText_normalisation :
    (∀ contentNode,
        normalisePopupText contentNode ≠ [] ∧
        (∀ line ∈ normalisePopupText contentNode, jsTrim line = line) ∧
        List.Chain' (fun a b => ¬(a = [] ∧ b = []))
          (normalisePopupText contentNode)) ∧
    normalisePopupText (some "  Line A  \nLine B<br><br>Line C  ".data) =
      ["Line A".data, "Line B".data, [], "Line C".data] := by
  constructor
  · intro contentNode
    match contentNode with
    | none =>
      refine ⟨by simp [normalisePopupText], ?_, ?_⟩
      · intro line hline
        simp only [normalisePopupText, List.mem_singleton] at hline
        subst hline; rfl
      · simp [normalisePopupText]
    | some rawHtml =>
      simp only [normalisePopupText]
      split
      · refine ⟨by simp, ?_, by simp⟩
        intro line hline
        simp only [List.mem_singleton] at hline
        subst hline; rfl
      · split
        next =>
          refine ⟨by simp, ?_, by simp⟩
          intro line hline
          simp only [List.mem_singleton] at hline
          subst hline; rfl
        next hres =>
          refine ⟨hres, ?_, collapseBlank_chain' _ [] (List.chain'_nil)⟩
          intro line hline
          rcases collapseBlank_mem _ [] line hline with h | h
          · simp at h
          · rcases List.mem_map.mp h with ⟨y, _, rfl⟩
            exact jsTrim_idem y
  · decide

/-- Witness for C5: the universal parts of the claim applied at concrete
inputs. -/
theorem normalisePopupText_normalisation_witness :
    jsTrim "Line A".data = "Line A".data ∧ normalisePopupText none ≠ [] :=
  ⟨(normalisePopupText_normalisation.1
      (some "  Line A  \nLine B<br><br>Line C  ".data)).2.1 "Line A".data (by decide),
   (normalisePopupText_normalisation.1 none).1⟩

/-- Invariant of the `collectPopupLayers` loop: if `seen` is exactly the
stamps of the accumulated popups, the accumulation is duplicate-free and
all accumulated popups pass `hasLayer`, then so is the loop's result. -/
theorem collectGo_invariant (env : PopupEnv) :
    ∀ (rest : List (Popup × Bool)) (acc : List Popup) (seen : List Nat),
      seen = acc.map Popup.id →
      (acc.map Popup.id).Nodup →
      (∀ p ∈ acc, env.hasLayer p.id = true) →
      ((collectGo env rest acc seen).map Popup.id).Nodup ∧
        ∀ p ∈ collectGo env rest acc seen, env.hasLayer p.id = true
  | [], _acc, _seen, _hseen, hnd, hhl => ⟨hnd, hhl⟩
  | (layer, isP) :: rest, acc, seen, hseen, hnd, hhl => by
    rw [collectGo]
    split
    next hcond =>
      obtain ⟨_hisP, hhas, hnot⟩ := hcond
      apply collectGo_invariant env rest (acc ++ [layer]) (seen ++ [layer.id])
      · simp [hseen]
      · have hnot' : layer.id ∉ acc.map Popup.id := by rw [← hseen]; exact hnot
        simp [List.nodup_append, hnd, hnot']
      · intro p hp
        rcases List.mem_append.mp hp with h | h
        · exact hhl p h
        · simp only [List.mem_singleton] at h; subst h; exact hhas
    next => exact collectGo_invariant env rest acc seen hseen hnd hhl

/-- Claim C10: the list returned by `collectPopupLayers` contains no
duplicate popup instances (their stamps are pairwise distinct) and only
popups for which `map.hasLayer` holds — in particular a popup that is both
the open popup `map._popup` and a layer-table entry is collected, laid out
and painted at most once. -/
theorem collectPopupLayers_no_dup (env : PopupEnv) :
    ((collectPopupLayers env).map Popup.id).Nodup ∧
      ∀ p ∈ collectPopupLayers env, env.hasLayer p.id = true := by
  cases henv : env.popup with
  | none =>
    simp only [collectPopupLayers, henv]
    exact collectGo_invariant env env.layers [] [] rfl (by simp) (by simp)
  | some p =>
    simp only [collectPopupLayers, henv]
    split
    next hhas =>
      refine collectGo_invariant env env.layers [p] [p.id] (by simp) (by simp) ?_
      intro q hq
      simp only [List.mem_singleton] at hq
      subst hq
      exact hhas
    next => exact collectGo_invariant env env.layers [] [] rfl (by simp) (by simp)

/-- Witness for C10: in an environment where the open popup also appears in
the layer table, the collected stamps are duplicate-free and a collected
popup passes `hasLayer`. -/
theorem collectPopupLayers_no_dup_witness :
    ((collectPopupLayers env10).map Popup.id).Nodup ∧ env10.hasLayer pop10.id = true :=
  ⟨(collectPopupLayers_no_dup env10).1,
   (collectPopupLayers_no_dup env10).2 pop10 (by decide)⟩

/-! Helper lemmas for the popup layout arithmetic. -/

theorem normalisePopupText_ne_nil (c : Option (List Char)) : normalisePopupText c ≠ [] := by
  match c with
  | none => simp [normalisePopupText]
  | some raw =>
    simp only [normalisePopupText]
    split
    · simp
    · split
      next => simp
      next h => exact h

theorem le_foldr_max (b : ℚ) : ∀ l : List ℚ, b ≤ l.foldr max b
  | [] => le_rfl
  | a :: l => le_trans (le_foldr_max b l) (le_max_right a _)

theorem foldr_max_split (a b : ℚ) : ∀ l : List ℚ, l.foldr max (max a b) = max (l.foldr max a) b
  | [] => rfl
  | c :: l => by
    simp only [List.foldr_cons, foldr_max_split a b l]
    exact (max_assoc c _ b).symm

/-- Evaluation of `measurePopupLayout` when the popup has a position: the
layout record with every derived quantity spelled out. -/
theorem measurePopupLayout_eq (measure : List Char → ℚ) (size : ℚ × ℚ) (popup : Popup)
    (pos : ℚ × ℚ) (hpos : popup.position = some pos) :
    measurePopupLayout measure size popup = some
      { left := (pos.1 + (popup.anchor.getD (0, 0)).1 + (popup.offset.getD (0, 0)).1)
          - max 40 (popupContentWidth measure popup + 20 + 24) / 2
        top := size.2 - (pos.2 + (popup.anchor.getD (0, 0)).2 + (popup.offset.getD (0, 0)).2)
          - (max 19 (19 * ((normalisePopupText popup.content).length : ℚ)) + 13 + 13 + 12)
        width := max 40 (popupContentWidth measure popup + 20 + 24)
        height := max 19 (19 * ((normalisePopupText popup.content).length : ℚ)) + 13 + 13
        contentLines := normalisePopupText popup.content
        padding := { left := 20, right := 24, top := 13, bottom := 13 }
        lineHeight := 19
        tipSize := 12 } := by
  have hlh : ((jsRound (14 * 1.35) : ℤ) : ℚ) = 19 := by norm_num [jsRound]
  simp only [measurePopupLayout, hpos, popupContentWidth, hlh]

/-- The code's `contentWidth` agrees with the claim's
`max(maxLineWidth, explicit override)` provided measured widths are
non-negative (true of any real text measurer). -/
theorem popupContentWidth_eq_spec (measure : List Char → ℚ) (popup : Popup)
    (hm : ∀ l, 0 ≤ measure l) :
    popupContentWidth measure popup = specMaxLineWidth measure popup := by
  rw [popupContentWidth, specMaxLineWidth]
  cases hlines : normalisePopupText popup.content with
  | nil => exact absurd hlines (normalisePopupText_ne_nil popup.content)
  | cons l0 ls =>
    simp only [List.map_cons]
    have hw0 : 0 ≤ measure l0 := hm l0
    have hsplit : (ls.map measure).foldr max (measure l0)
        = max ((ls.map measure).foldr max 0) (measure l0) := by
      rw [← foldr_max_split, max_eq_right hw0]
    cases hexp : popup.explicitWidth with
    | none =>
      simp only [Option.getD_none]
      rw [List.foldr_cons, max_self, hsplit, max_comm]
    | some w =>
      simp only [Option.getD_some]
      rw [List.foldr_cons, foldr_max_split 0 w, hsplit]
      simp [max_assoc, max_comm, max_left_comm]

/-- Claim C6: for every callout, `boxWidth` equals
`max(minimumBoxWidth, maxLineWidth + padding.left + padding.right)` with the
explicit content width override an additional lower-bound candidate among
the measured line widths, and `boxWidth` never falls below the minimum
floor of `40`. -/
theorem measurePopupLayout_box_width (measure : List Char → ℚ) (size : ℚ × ℚ)
    (popup : Popup) (pos : ℚ × ℚ) (hpos : popup.position = some pos)
    (hm : ∀ l, 0 ≤ measure l) :
    ∃ layout, measurePopupLayout measure size popup = some layout ∧
      layout.width = max 40 (specMaxLineWidth measure popup + (20 + 24)) ∧
      40 ≤ layout.width := by
  refine ⟨_, measurePopupLayout_eq measure size popup pos hpos, ?_, le_max_left _ _⟩
  dsimp only
  rw [popupContentWidth_eq_spec measure popup hm, add_assoc]

/-- Witness for C6: the box width formula and floor at a popup with no
content node (empty content), measured by character count. -/
theorem measurePopupLayout_box_width_witness :
    ∃ layout, measurePopupLayout meas0 (400, 300) popEmpty = some layout ∧
      layout.width = max 40 (specMaxLineWidth meas0 popEmpty + (20 + 24)) ∧
      40 ≤ layout.width :=
  measurePopupLayout_box_width meas0 (400, 300) popEmpty (10, 20) rfl
    (fun l => by simp [meas0])

/-- Claim C7: the callout box is horizontally centered on the screen anchor
`(ax, ay)` (the projected anchor plus the popup's own anchor offset plus the
user offset), `boxLeft = ax - boxWidth / 2`, and `boxTop` reflects the
anchor's y against the viewport height before subtracting box height and
tail size: `boxTop = viewportHeight - ay - (boxHeight + tailSize)`. -/
theorem measurePopupLayout_anchor_placement (measure : List Char → ℚ) (size : ℚ × ℚ)
    (popup : Popup) (pos : ℚ × ℚ) (hpos : popup.position = some pos) :
    ∃ layout, measurePopupLayout measure size popup = some layout ∧
      layout.left = (pos.1 + (popup.anchor.getD (0, 0)).1 + (popup.offset.getD (0, 0)).1)
        - layout.width / 2 ∧
      layout.top = size.2 - (pos.2 + (popup.anchor.getD (0, 0)).2 + (popup.offset.getD (0, 0)).2)
        - (layout.height + layout.tipSize) :=
  ⟨_, measurePopupLayout_eq measure size popup pos hpos, rfl, rfl⟩

/-- Witness for C7: the placement equations at `pop0` on a `400 × 300`
viewport. -/
theorem measurePopupLayout_anchor_placement_witness :
    ∃ layout, measurePopupLayout meas0 (400, 300) pop0 = some layout ∧
      layout.left = ((100 : ℚ) + (pop0.anchor.getD (0, 0)).1 + (pop0.offset.getD (0, 0)).1)
        - layout.width / 2 ∧
      layout.top = (300 : ℚ) - ((50 : ℚ) + (pop0.anchor.getD (0, 0)).2 + (pop0.offset.getD (0, 0)).2)
        - (layout.height + layout.tipSize) :=
  measurePopupLayout_anchor_placement meas0 (400, 300) pop0 (100, 50) rfl

/-- Claim C9 (amended): `boxWidth` equals the code's maximal candidate width
(maximum of `0`, the measured line widths and the explicit override) plus
horizontal padding — the `40` floor never binds because the padding already
sums to `44` — so `boxWidth` moves exactly with that maximum (not with the
width of an arbitrary, possibly non-maximal, line); and
`boxHeight = lineCount * lineHeight + padding.top + padding.bottom` with at
least one line. -/
theorem measurePopupLayout_size_scaling (measure : List Char → ℚ) (size : ℚ × ℚ)
    (popup : Popup) (pos : ℚ × ℚ) (hpos : popup.position = some pos) :
    ∃ layout, measurePopupLayout measure size popup = some layout ∧
      layout.width = popupContentWidth measure popup + (20 + 24) ∧
      (∀ measure2 layout2, measurePopupLayout measure2 size popup = some layout2 →
        layout2.width - layout.width
          = popupContentWidth measure2 popup - popupContentWidth measure popup) ∧
      layout.height = ((normalisePopupText popup.content).length : ℚ) * 19 + (13 + 13) ∧
      1 ≤ (normalisePopupText popup.content).length := by
  have hcw : ∀ μ : List Char → ℚ, 0 ≤ popupContentWidth μ popup := fun μ =>
    le_trans (le_max_left 0 _) (le_foldr_max _ _)
  have hwidth : ∀ μ : List Char → ℚ,
      max 40 (popupContentWidth μ popup + 20 + 24) = popupContentWidth μ popup + (20 + 24) := by
    intro μ
    rw [add_assoc, max_eq_right]
    have := hcw μ
    linarith
  have hlen : 1 ≤ (normalisePopupText popup.content).length :=
    List.length_pos.mpr (normalisePopupText_ne_nil popup.content)
  refine ⟨_, measurePopupLayout_eq measure size popup pos hpos, ?_, ?_, ?_, hlen⟩
  · exact hwidth measure
  · intro measure2 layout2 h2
    rw [measurePopupLayout_eq measure2 size popup pos hpos, Option.some_inj] at h2
    subst h2
    dsimp only
    rw [hwidth measure, hwidth measure2]
    ring
  · dsimp only
    have h19 : (19 : ℚ) ≤ 19 * ((normalisePopupText popup.content).length : ℚ) := by
      have : (1 : ℚ) ≤ ((normalisePopupText popup.content).length : ℚ) := by
        exact_mod_cast hlen
      linarith
    rw [max_eq_right h19]
    ring

/-- Witness for C9 (amended): the sizing facts at the two-line popup `pop9`,
including the exact width delta between the measurers `measA` and `measB`. -/
theorem measurePopupLayout_size_scaling_witness :
    ∃ layout, measurePopupLayout measA (400, 300) pop9 = some layout ∧
      layout.width = popupContentWidth measA pop9 + (20 + 24) ∧
      (∀ measure2 layout2, measurePopupLayout measure2 (400, 300) pop9 = some layout2 →
        layout2.width - layout.width
          = popupContentWidth measure2 pop9 - popupContentWidth measA pop9) ∧
      layout.height = ((normalisePopupText pop9.content).length : ℚ) * 19 + (13 + 13) ∧
      1 ≤ (normalisePopupText pop9.content).length :=
  measurePopupLayout_size_scaling measA (400, 300) pop9 (0, 0) rfl

/-- Counterexample for C9: increasing the measured width of the non-maximal
line `"A"` of a two-line callout by `10` (measurer `measA` versus `measB`)
leaves `boxWidth` at `144` instead of strictly increasing it by the same
delta. -/
theorem box_width_nonmax_line_ce :
    measB "A".data = measA "A".data + 10 ∧
    (∃ la lb, measurePopupLayout measA (400, 300) pop9 = some la ∧
      measurePopupLayout measB (400, 300) pop9 = some lb ∧
      la.width = 144 ∧ lb.width = 144 ∧ ¬lb.width = la.width + 10) := by
  constructor
  · simp only [measA, measB, if_pos]
    norm_num
  · have hn : normalisePopupText pop9.content = ["A".data, "BB".data] := by decide
    have hwA : popupContentWidth measA pop9 = 100 := by
      rw [popupContentWidth, hn]
      have h1 : measA "A".data = 10 := by simp [measA]
      have h2 : measA "BB".data = 100 := by decide
      have h3 : pop9.explicitWidth = none := rfl
      rw [h3]
      simp only [List.map_cons, List.map_nil, List.foldr_cons, List.foldr_nil,
        Option.getD_none, h1, h2]
      norm_num
    have hwB : popupContentWidth measB pop9 = 100 := by
      rw [popupContentWidth, hn]
      have h1 : measB "A".data = 20 := by simp [measB]
      have h2 : measB "BB".data = 100 := by decide
      have h3 : pop9.explicitWidth = none := rfl
      rw [h3]
      simp only [List.map_cons, List.map_nil, List.foldr_cons, List.foldr_nil,
        Option.getD_none, h1, h2]
      norm_num
    refine ⟨_, _, measurePopupLayout_eq measA (400, 300) pop9 (0, 0) rfl,
      measurePopupLayout_eq measB (400, 300) pop9 (0, 0) rfl, ?_, ?_, ?_⟩
    · dsimp only; rw [hwA]; norm_num
    · dsimp only; rw [hwB]; norm_num
    · dsimp only; rw [hwA, hwB]; norm_num

/-- Claim C8 (amended): the tail drawn for a painted callout is the diamond
whose top vertex sits on the box's bottom edge at the horizontal box center,
whose side vertices sit `tailSize` below that edge, and whose pointing tip
is at the horizontal box center offset downward by `2 * tailSize` — i.e. at
`(boxLeft + boxWidth / 2, boxTop + boxHeight + 2 * tailSize)`; the shape is
horizontally centered on the box (mirror-symmetric about the center
line). -/
theorem popupOps_tail_geometry (layout : PopupLayout) :
    (popupOps layout)[1]? = some (PopupOp.tailPath (tailPoints layout)) ∧
    (tailPoints layout)[2]? =
      some (layout.left + layout.width / 2,
            layout.top + layout.height + 2 * layout.tipSize) ∧
    ∀ p ∈ tailPoints layout,
      (2 * (layout.left + layout.width / 2) - p.1, p.2) ∈ tailPoints layout := by
  refine ⟨rfl, ?_, ?_⟩
  · have h2 : (tailPoints layout)[2]? =
        some (layout.left + layout.width / 2,
              layout.top + layout.height + layout.tipSize * 2) := rfl
    rw [h2, Option.some_inj]
    exact Prod.ext_iff.mpr ⟨rfl, by ring⟩
  · intro p hp
    simp only [tailPoints, List.mem_cons, List.not_mem_nil, or_false] at hp ⊢
    rcases hp with rfl | rfl | rfl | rfl
    · exact Or.inl (Prod.ext_iff.mpr ⟨by ring, rfl⟩)
    · exact Or.inr (Or.inr (Or.inr (Prod.ext_iff.mpr ⟨by ring, rfl⟩)))
    · exact Or.inr (Or.inr (Or.inl (Prod.ext_iff.mpr ⟨by ring, rfl⟩)))
    · exact Or.inr (Or.inl (Prod.ext_iff.mpr ⟨by ring, rfl⟩))

/-- Witness for C8 (amended): the tail geometry applied at the concrete
layout `layoutW` and its top tail vertex. -/
theorem popupOps_tail_geometry_witness :
    (popupOps layoutW)[1]? = some (PopupOp.tailPath (tailPoints layoutW)) ∧
    ((2 * (layoutW.left + layoutW.width / 2)
        - (layoutW.left + layoutW.width / 2), layoutW.top + layoutW.height)
      ∈ tailPoints layoutW) :=
  ⟨(popupOps_tail_geometry layoutW).1,
   (popupOps_tail_geometry layoutW).2.2
     (layoutW.left + layoutW.width / 2, layoutW.top + layoutW.height)
     (List.mem_cons_self _ _)⟩

/-- Counterexample for C8: for the painted callout of `pop0` (box left `77`,
top `200`, width `46`, height `45`, tail size `12`) the claimed apex point
`(boxLeft + boxWidth / 2, boxTop + boxHeight + tailSize) = (100, 257)` is
not a vertex of the drawn tail at all; the pointing tip is `(100, 269)`,
offset `2 * tailSize` below the box bottom edge `245`. -/
theorem tail_apex_offset_ce :
    ∃ pts, (drawPopupOverlays meas0 env8 (400, 300))[1]? = some (PopupOp.tailPath pts) ∧
      pts = [((100 : ℚ), (245 : ℚ)), (112, 257), (100, 269), (88, 257)] ∧
      ((100 : ℚ), (257 : ℚ)) ∉ pts ∧
      pts[2]? = some (100, 269) ∧
      (269 : ℚ) = 245 + 2 * 12 ∧ ¬(269 : ℚ) = 245 + 12 := by
  have hn : normalisePopupText (some "Hi".data) = ["Hi".data] := by decide
  have hlay : measurePopupLayout meas0 (400, 300) pop0 =
      some { left := 77, top := 200, width := 46, height := 45,
             contentLines := ["Hi".data],
             padding := { left := 20, right := 24, top := 13, bottom := 13 },
             lineHeight := 19, tipSize := 12 } := by
    simp only [measurePopupLayout, pop0, hn, meas0, jsRound, Option.getD]
    norm_num [meas0]
  have hcol : collectPopupLayers env8 = [pop0] := rfl
  have hops : ∀ lay, measurePopupLayout meas0 (400, 300) pop0 = some lay →
      drawPopupOverlays meas0 env8 (400, 300) = popupOps lay := by
    intro lay hl
    rw [drawPopupOverlays, hcol]
    simp [hl]
  have htail : tailPoints
      { left := 77, top := 200, width := 46, height := 45,
        contentLines := ["Hi".data],
        padding := { left := 20, right := 24, top := 13, bottom := 13 },
        lineHeight := 19, tipSize := 12 } =
      [((100 : ℚ), (245 : ℚ)), (112, 257), (100, 269), (88, 257)] := by
    simp only [tailPoints]
    norm_num
  refine ⟨[((100 : ℚ), (245 : ℚ)), (112, 257), (100, 269), (88, 257)], ?_, rfl, ?_,
    rfl, by norm_num, by norm_num⟩
  · rw [hops _ hlay, ← htail]
    rfl
  · norm_num

/-! Helper lemmas for the compositing loop and `mapToCanvas`. -/

theorem compositeLoop_ops (load : Loader) :
    ∀ es : List Element,
      (compositeLoop load es).1 = es.filterMap (fun e => (elementStep load e).1)
  | [] => rfl
  | e :: es => by
    simp only [compositeLoop]
    cases h : (elementStep load e).1 with
    | none => simp [List.filterMap_cons, h, compositeLoop_ops load es]
    | some op => simp [List.filterMap_cons, h, compositeLoop_ops load es]

theorem mapToCanvas_ok (load : Loader) (measure : List Char → ℚ) (m : MapModel)
    (c : Canvas) (m' : MapModel) (h : mapToCanvas load measure m = (Except.ok c, m')) :
    c.width = m.size.1 ∧ c.height = m.size.2 ∧
      c.ops = (effectiveElements m).filterMap (fun e => (elementStep load e).1) := by
  simp only [mapToCanvas] at h
  split at h
  next h1 =>
    split at h
    next h2 => exact absurd (congrArg Prod.fst h) (by simp)
    next h2 =>
      injection h with hfst hsnd
      injection hfst with hfst
      subst hfst
      exact ⟨rfl, rfl, by simp [effectiveElements, h1, compositeLoop_ops]⟩
  next h1 =>
    injection h with hfst hsnd
    injection hfst with hfst
    subst hfst
    exact ⟨rfl, rfl, by simp [effectiveElements, h1, compositeLoop_ops]⟩

theorem mapToCanvas_ok_exists (load : Loader) (measure : List Char → ℚ) (m : MapModel)
    (hne : ¬(effectiveElements m).isEmpty = true) :
    ∃ c m', mapToCanvas load measure m = (Except.ok c, m') := by
  simp only [mapToCanvas]
  split
  next h1 =>
    split
    next h2 =>
      exact absurd (by simp [effectiveElements, h1, h2]) hne
    next h2 => exact ⟨_, _, rfl⟩
  next h1 => exact ⟨_, _, rfl⟩

/-- Claim C1: every canvas `mapToCanvas` returns has exactly the viewport's
dimensions, and the drawn layer list is a position-blind `filterMap` over
the single enumerated element list: whether an element is composited never
depends on its position or offsets, so a layer whose content falls fully
outside the viewport is still composited — no out-of-bounds pre-filtering
happens. -/
theorem mapToCanvas_viewport_dims :
    (∀ (load : Loader) (measure : List Char → ℚ) (m : MapModel) c m',
        mapToCanvas load measure m = (Except.ok c, m') →
        c.width = m.size.1 ∧ c.height = m.size.2 ∧
          c.ops = (effectiveElements m).filterMap (fun e => (elementStep load e).1)) ∧
    (∀ (load : Loader) (e : Element) sl st ol ot,
        ((elementStep load
            { e with
                styleLeft := sl, styleTop := st,
                offsetLeft := ol, offsetTop := ot }).1).isSome
          = ((elementStep load e).1).isSome) := by
  refine ⟨fun load measure m c m' h => mapToCanvas_ok load measure m c m' h, ?_⟩
  intro load e sl st ol ot
  rcases e with ⟨tag, esl, est, eol, eot, nc, src, ni, wp, hgt, wa, hga⟩
  cases tag with
  | canvas => cases nc <;> rfl
  | img =>
    cases src with
    | none => rfl
    | some s =>
      cases ni with
      | some img => rfl
      | none =>
        simp only [elementStep, resolveImage]
        cases load s <;> rfl

/-- Witness for C1: a `200 × 100` viewport whose only layer is a canvas
positioned at `(-1000, -1000)` — fully outside the viewport — still gets
composited, and the returned canvas has the viewport dimensions. -/
theorem mapToCanvas_viewport_dims_witness :
    (∃ c, mapToCanvas loadFail meas0 mapOut
        = (Except.ok c, (mapToCanvas loadFail meas0 mapOut).2) ∧
      c.width = mapOut.size.1 ∧ c.height = mapOut.size.2 ∧
      c.ops = (effectiveElements mapOut).filterMap (fun e => (elementStep loadFail e).1)) ∧
    ((elementStep loadFail
        { canvasElemFarOut with
            styleLeft := some 0, styleTop := some 0,
            offsetLeft := none, offsetTop := none }).1).isSome
      = ((elementStep loadFail canvasElemFarOut).1).isSome :=
  ⟨⟨_, rfl, mapToCanvas_viewport_dims.1 loadFail meas0 mapOut _ _ rfl⟩,
   mapToCanvas_viewport_dims.2 loadFail canvasElemFarOut (some 0) (some 0) none none⟩

/-- Claim C2: a failing image fetch/decode is non-fatal: when the
enumerated scene is non-empty, `mapToCanvas` returns a canvas (throws
nothing), a failing uncached image layer contributes no draw call (logged
and skipped), and the output's draw list is exactly the per-layer
`filterMap` in scene order — so the remaining layers all still appear, in
order. -/
theorem mapToCanvas_decode_failure_nonfatal (load : Loader) (measure : List Char → ℚ)
    (m : MapModel) (hne : ¬(effectiveElements m).isEmpty = true) :
    (∃ c m', mapToCanvas load measure m = (Except.ok c, m') ∧
      c.ops = (effectiveElements m).filterMap (fun e => (elementStep load e).1)) ∧
    (∀ e : Element, e.tag = Tag.img → e.napiImage = none →
      (∀ s, e.src = some s → ∃ msg, load s = Except.error msg) →
      (elementStep load e).1 = none) := by
  constructor
  · obtain ⟨c, m', h⟩ := mapToCanvas_ok_exists load measure m hne
    exact ⟨c, m', h, (mapToCanvas_ok load measure m c m' h).2.2⟩
  · intro e htag hni hsrc
    rcases e with ⟨tag, esl, est, eol, eot, nc, src, ni, wp, hgt, wa, hga⟩
    simp only at htag hni
    subst htag
    subst hni
    cases src with
    | none => rfl
    | some s =>
      obtain ⟨msg, hmsg⟩ := hsrc s rfl
      simp [elementStep, resolveImage, hmsg]

/-- Witness for C2: the concrete three-layer scene `mapThree` whose second
layer is an image that fails to decode under `loadFail` produces, without
an exception, a canvas showing exactly layers 1 and 3 in order. -/
theorem mapToCanvas_decode_failure_nonfatal_witness :
    ((∃ c m', mapToCanvas loadFail meas0 mapThree = (Except.ok c, m') ∧
        c.ops = (effectiveElements mapThree).filterMap
          (fun e => (elementStep loadFail e).1)) ∧
      (∀ e : Element, e.tag = Tag.img → e.napiImage = none →
        (∀ s, e.src = some s → ∃ msg, loadFail s = Except.error msg) →
        (elementStep loadFail e).1 = none)) ∧
    (mapToCanvas loadFail meas0 mapThree).1 = Except.ok
      { width := 200, height := 100,
        ops := [DrawOp.canvasBlit raster1 (-1000) (-1000), DrawOp.canvasBlit raster3 0 0],
        popupOps := [] } :=
  ⟨mapToCanvas_decode_failure_nonfatal loadFail meas0 mapThree (by decide), rfl⟩

/-- Claim C3: with no drawable layers, `mapToCanvas` adds the synthetic
zero-opacity circle, re-enumerates once (the model's
`elementsAfterCircle`), fails only if the scene is still empty afterwards,
and removes the synthetic circle from the scene on every path — the final
scene layers equal the original ones whether the call succeeds or fails. -/
theorem mapToCanvas_temp_circle_cleanup (load : Loader) (measure : List Char → ℚ)
    (m : MapModel) (hfresh : m.circleId ∉ m.sceneLayers) :
    ((mapToCanvas load measure m).2).sceneLayers = m.sceneLayers ∧
    ((∃ c, (mapToCanvas load measure m).1 = Except.ok c) ↔
      ¬(m.elements = [] ∧ m.elementsAfterCircle = [])) := by
  have hfilter : (m.sceneLayers ++ [m.circleId]).filter (fun i => i ≠ m.circleId)
      = m.sceneLayers := by
    rw [List.filter_append]
    have h1 : List.filter (fun i => decide (i ≠ m.circleId)) [m.circleId] = [] := by simp
    have h2 : List.filter (fun i => decide (i ≠ m.circleId)) m.sceneLayers = m.sceneLayers := by
      apply List.filter_eq_self.mpr
      intro a ha
      simp only [decide_eq_true_eq]
      intro hcontra
      exact hfresh (hcontra ▸ ha)
    rw [h1, h2, List.append_nil]
  constructor
  · simp only [mapToCanvas]
    split
    next h1 =>
      split
      next h2 => exact hfilter
      next h2 => exact hfilter
    next h1 => rfl
  · simp only [mapToCanvas]
    split
    next h1 =>
      split
      next h2 =>
        simp only [List.isEmpty_iff] at h1 h2
        constructor
        · rintro ⟨c, hc⟩
          exact absurd hc (by simp)
        · intro hcontra
          exact absurd ⟨h1, h2⟩ hcontra
      next h2 =>
        simp only [List.isEmpty_iff] at h1 h2
        constructor
        · intro _
          exact fun hcontra => h2 hcontra.2
        · intro _
          exact ⟨_, rfl⟩
    next h1 =>
      simp only [List.isEmpty_iff] at h1
      constructor
      · intro _
        exact fun hcontra => h1 hcontra.1
      · intro _
        exact ⟨_, rfl⟩

/-- Witness for C3: the empty scene `mapEmpty` (circle re-query finds one
canvas) keeps its original scene layers and returns a non-error canvas. -/
theorem mapToCanvas_temp_circle_cleanup_witness :
    ((mapToCanvas loadFail meas0 mapEmpty).2).sceneLayers = mapEmpty.sceneLayers ∧
    ((∃ c, (mapToCanvas loadFail meas0 mapEmpty).1 = Except.ok c) ↔
      ¬(mapEmpty.elements = [] ∧ mapEmpty.elementsAfterCircle = [])) :=
  mapToCanvas_temp_circle_cleanup loadFail meas0 mapEmpty (by decide)

/-- Claim C4 (amended): for an image element with an empty decode cache
whose fetch/decode succeeds, the first resolution performs exactly one
fetch and stores the decoded raster on the element (`_napiImage`), and
every subsequent resolution of that element returns the cached raster
unchanged with no I/O — resolving such an element twice performs exactly
one fetch/decode. -/
theorem resolveImage_cache_idempotent (load : Loader) (e : Element) (src : List Char)
    (image : Raster) (h0 : e.napiImage = none)
    (hok : (resolveImage load e src).1 = Except.ok image) :
    resolveImage load e src = (Except.ok image, { e with napiImage := some image }, 1) ∧
    (∀ (load2 : Loader) (src2 : List Char),
      resolveImage load2 { e with napiImage := some image } src2
        = (Except.ok image, { e with napiImage := some image }, 0)) := by
  have h1 : resolveImage load e src = (Except.ok image, { e with napiImage := some image }, 1) := by
    simp only [resolveImage, h0] at hok ⊢
    cases hl : load src with
    | error msg =>
      rw [hl] at hok
      exact absurd hok (by simp)
    | ok img2 =>
      rw [hl] at hok
      simp only [Except.ok.injEq] at hok
      subst hok
      rfl
  exact ⟨h1, fun load2 src2 => rfl⟩

/-- Witness for C4 (amended): resolving `imgElemTile` twice under `loadOk`
fetches once and then serves the cache. -/
theorem resolveImage_cache_idempotent_witness :
    resolveImage loadOk imgElemTile "tile.png".data
      = (Except.ok raster0, { imgElemTile with napiImage := some raster0 }, 1) ∧
    (∀ (load2 : Loader) (src2 : List Char),
      resolveImage load2 { imgElemTile with napiImage := some raster0 } src2
        = (Except.ok raster0, { imgElemTile with napiImage := some raster0 }, 0)) :=
  resolveImage_cache_idempotent loadOk imgElemTile "tile.png".data raster0 rfl rfl

/-- Counterexample for C4: when the fetch/decode fails, nothing is cached
(the exception is thrown before the cache assignment), so resolving the
same image element twice performs two fetches — not exactly one. -/
theorem resolveImage_failed_refetch_ce :
    (resolveImage loadFail imgElemTile "tile.png".data).2.2
        + (resolveImage loadFail
            (resolveImage loadFail imgElemTile "tile.png".data).2.1
            "tile.png".data).2.2 = 2 ∧
    ¬((resolveImage loadFail imgElemTile "tile.png".data).2.2
        + (resolveImage loadFail
            (resolveImage loadFail imgElemTile "tile.png".data).2.1
            "tile.png".data).2.2 = 1) := by
  decide

end LeafletHeadless
